import Mathlib

/-!
Shallow embedding of the pgx database access layer
(`business/data/dbsql/pgx/pgx.go`): error translation, single-row and
multi-row query execution, mutation execution, connection bootstrap,
the health-check retry loop, and the diagnostic query formatter.
-/

namespace Pgx

/-- Driver error code for a uniqueness-constraint violation (`23505`). -/
def uniqueViolation : String := "23505"

/-- Driver error code for "relation does not exist" (`42P01`). -/
def undefinedTable : String := "42P01"

/-- A driver-level error: either a structured postgres error
(`*pgconn.PgError`, carrying a code and a free-text message) or any
other error value, identified by its message. -/
inductive DriverError
  | pg (code : String) (msg : String)
  | otherErr (msg : String)
deriving DecidableEq, Repr

/-- The stable error taxonomy surfaced by this layer: the sentinel values
`ErrDBNotFound`, `ErrDBDuplicatedEntry`, `ErrUndefinedTable`, a row-scan
failure, or a passthrough driver error. -/
inductive DBError
  | notFound
  | duplicatedEntry
  | undefinedTable
  | scanErr (msg : String)
  | driver (e : DriverError)
deriving DecidableEq, Repr

/-- The error branch shared by `RunQuery` and `RunQuerySlice`: a postgres
error whose code is `undefinedTable` becomes `ErrUndefinedTable`; every
other error is returned unchanged. -/
def translateReadErr : DriverError → DBError
  | DriverError.pg code msg =>
      if code = undefinedTable then DBError.undefinedTable
      else DBError.driver (DriverError.pg code msg)
  | DriverError.otherErr msg => DBError.driver (DriverError.otherErr msg)

/-- Model of `RunQuery`: single-row query execution. `queryRes` is the outcome of
`sqlx.NamedQueryContext` (a driver error or the list of result rows, in
driver-return order); `structScan` is the reflective row-to-struct
mapping; `dest` is the caller's destination value. Returns the final
destination value paired with the error outcome: on any error the
destination is returned unchanged. Zero rows yields `notFound`; one or
more rows scans only the first row. -/
def RunQuery {Row T : Type} (queryRes : Except DriverError (List Row))
    (structScan : Row → Except String T) (dest : T) : T × Option DBError :=
  match queryRes with
  | Except.error e => (dest, some (translateReadErr e))
  | Except.ok rows =>
    match rows with
    | [] => (dest, some DBError.notFound)
    | r :: _ =>
      match structScan r with
      | Except.error m => (dest, some (DBError.scanErr m))
      | Except.ok v => (v, none)

/-- The row loop of `RunQuerySlice`: scan each row in order, stopping at
the first scan error, otherwise accumulating the scanned values in
driver-return order. -/
def scanRows {Row T : Type} (structScan : Row → Except String T) :
    List Row → Except String (List T)
  | [] => Except.ok []
  | r :: rs =>
    match structScan r with
    | Except.error m => Except.error m
    | Except.ok v =>
      match scanRows structScan rs with
      | Except.error m => Except.error m
      | Except.ok vs => Except.ok (v :: vs)

/-- Model of `RunQuerySlice`: multi-row query execution. Accumulates every row
into a fresh list and assigns it to the destination only when the whole
loop succeeds; on a driver error or a row-scan error the caller's
destination is returned unchanged. -/
def RunQuerySlice {Row T : Type} (queryRes : Except DriverError (List Row))
    (structScan : Row → Except String T) (dest : List T) : List T × Option DBError :=
  match queryRes with
  | Except.error e => (dest, some (translateReadErr e))
  | Except.ok rows =>
    match scanRows structScan rows with
    | Except.error m => (dest, some (DBError.scanErr m))
    | Except.ok slice => (slice, none)

/-- Model of `RunCUD`: mutation execution. `execRes` is the outcome of
`sqlx.NamedExecContext`, carrying the affected-row count on success
(which the function ignores). Postgres error codes are switched on:
`undefinedTable` maps to `ErrUndefinedTable`, `uniqueViolation` to
`ErrDBDuplicatedEntry`; anything else is returned unchanged. -/
def RunCUD (execRes : Except DriverError Nat) : Option DBError :=
  match execRes with
  | Except.ok _ => none
  | Except.error (DriverError.pg code msg) =>
      if code = undefinedTable then some DBError.undefinedTable
      else if code = uniqueViolation then some DBError.duplicatedEntry
      else some (DBError.driver (DriverError.pg code msg))
  | Except.error (DriverError.otherErr msg) =>
      some (DBError.driver (DriverError.otherErr msg))

/-- Model of `Config`: the required properties to use the database
(string/duration fields as in the source; durations in nanoseconds are
irrelevant to the claims, modelled as integers). -/
structure Config where
  User : String
  Password : String
  Host : String
  Port : String
  Name : String
  Schema : String
  MaxIdleConns : Int
  MaxOpenConns : Int
  IdleConnTimeout : Int
  EnableTLS : Bool
  CACert : String
  ClientCert : String
  ClientKey : String
  ApplicationName : String
deriving DecidableEq, Repr

/-- Model of `getSSLMode`: `disable` when TLS is off; if TLS is on and any of the
three certificate fields is empty, the configuration error; otherwise
`require`. -/
def getSSLMode (cfg : Config) : Except String String :=
  if !cfg.EnableTLS then Except.ok "disable"
  else if cfg.CACert = "" ∨ cfg.ClientCert = "" ∨ cfg.ClientKey = "" then
    Except.error "SSL certificates not properly configured"
  else Except.ok "require"

/-- Model of `url.Values`: a map from key to value (each `q.Set` stores a
single-element list; modelled as the latest value per key). -/
def Values : Type := String → Option String

/-- The empty `url.Values` created by `make(url.Values)`. -/
def Values.empty : Values := fun _ => none

/-- Model of `q.Set(k, v)`: replace the value stored under `k`. -/
def Values.set (q : Values) (k v : String) : Values :=
  fun k2 => if k2 = k then some v else q k2

/-- The query-parameter map built by `Open`: sslmode, timezone and
application_name always; the three certificate paths when TLS is
enabled; search_path when a schema is configured. -/
def buildQueryValues (cfg : Config) (sslMode : String) : Values :=
  let q0 := (((Values.empty.set "sslmode" sslMode).set "timezone" "utc").set
      "application_name" cfg.ApplicationName)
  let q1 := if cfg.EnableTLS then
      (((q0.set "sslrootcert" cfg.CACert).set "sslcert" cfg.ClientCert).set
        "sslkey" cfg.ClientKey)
    else q0
  if cfg.Schema ≠ "" then q1.set "search_path" cfg.Schema else q1

/-- The `url.URL` connection target assembled by `Open`. -/
structure ConnTarget where
  scheme : String
  user : String
  password : String
  host : String
  path : String
  query : Values

/-- The pure prefix of `Open`: validate the configuration via
`getSSLMode` and, only on success, assemble the connection target. On a
configuration error the function returns before any connection string
exists and before any pool or network activity. -/
def openConnTarget (cfg : Config) : Except String ConnTarget :=
  match getSSLMode cfg with
  | Except.error e => Except.error e
  | Except.ok sslMode =>
    Except.ok ⟨"postgres", cfg.User, cfg.Password, cfg.Host ++ ":" ++ cfg.Port,
      cfg.Name, buildQueryValues cfg sslMode⟩

/-- A Go `context.Context` reduced to what `StatusCheck` observes: an
optional absolute deadline, in seconds. `ctx.Err()` is non-nil exactly
when the current time has reached the deadline. -/
structure GoContext where
  deadline : Option Nat
deriving DecidableEq, Repr

/-- The deadline `StatusCheck` runs under: the context's own deadline
when it has one, otherwise a default of now + 5 seconds imposed by
`context.WithTimeout(ctx, time.Second*5)`. -/
def effectiveDeadline (ctx : GoContext) (now : Nat) : Nat :=
  match ctx.deadline with
  | some d => d
  | none => now + 5

/-- Outcome of the retry loop of `StatusCheck`. Both constructors record
the times at which ping probes were issued and the durations (in
seconds) of the sleeps performed, in order. -/
inductive LoopExit
  | success (now : Nat) (pings : List Nat) (sleeps : List Nat)
  | ctxExpired (now : Nat) (pings : List Nat) (sleeps : List Nat)
deriving DecidableEq, Repr

/-- The retry loop `for attempts := 1; ; attempts++` of `StatusCheck`,
with `attempts = k + 1` (the loop is entered with `k = 0`). Each
iteration issues a ping at the current time; on success it exits; on
failure it sleeps `attempts * 1` seconds and only then checks
`ctx.Err()`, exiting with the combined error when the deadline has
passed. Pings are modelled as instantaneous; time advances by the
sleeps. -/
def statusCheckLoop (ping : Nat → Bool) (deadline : Nat) (now k : Nat)
    (pings sleeps : List Nat) : LoopExit :=
  if ping now then LoopExit.success now (pings ++ [now]) sleeps
  else if deadline ≤ now + (k + 1) then
    LoopExit.ctxExpired (now + (k + 1)) (pings ++ [now]) (sleeps ++ [k + 1])
  else
    statusCheckLoop ping deadline (now + (k + 1)) (k + 1)
      (pings ++ [now]) (sleeps ++ [k + 1])
termination_by deadline - now
decreasing_by simp_wf; omega

/-- How `StatusCheck` returns: success; the in-loop error
`fmt.Errorf("%w : database: %w", ctx.Err(), pingError)` wrapping both
the context error and the last probe error; the bare `ctx.Err()`
returned after a successful probe; or failure of the final
`SELECT true` round trip. -/
inductive StatusResult
  | ok
  | ctxAndPing
  | ctxOnly
  | queryFailed
deriving DecidableEq, Repr

/-- A `StatusCheck` run: its result plus the observed probe times and
sleep durations. -/
structure StatusOutcome where
  result : StatusResult
  pings : List Nat
  sleeps : List Nat
deriving DecidableEq, Repr

/-- Model of `StatusCheck`: impose the default 5-second deadline when the context
has none, run the retry loop, and on loop success re-check the context
before issuing the `SELECT true` round trip (abstracted by
`roundTripOk`). -/
def StatusCheck (ctx : GoContext) (now : Nat) (ping : Nat → Bool)
    (roundTripOk : Bool) : StatusOutcome :=
  match statusCheckLoop ping (effectiveDeadline ctx now) now 0 [] [] with
  | LoopExit.ctxExpired _ ps ss => ⟨StatusResult.ctxAndPing, ps, ss⟩
  | LoopExit.success t ps ss =>
    if effectiveDeadline ctx now ≤ t then ⟨StatusResult.ctxOnly, ps, ss⟩
    else if roundTripOk then ⟨StatusResult.ok, ps, ss⟩
    else ⟨StatusResult.queryFailed, ps, ss⟩

/-- A parameter value extracted by `sqlx.Named`, as discriminated by the
type switch in `ParseQuery`: `string`, `[]byte` (rendered through
`string(v)`), `uuid.UUID` (rendered through `%s` of its string form), or
any other value, carried here in its default `%v` rendering. -/
inductive GoValue
  | str (s : String)
  | bytes (s : String)
  | uuid (s : String)
  | otherVal (s : String)
deriving DecidableEq, Repr

/-- The `value` computed by the type switch of `ParseQuery`: string-like
values are wrapped in single quotes, everything else keeps its default
textual form. -/
def renderValue : GoValue → String
  | GoValue.str v => "\x27" ++ v ++ "\x27"
  | GoValue.bytes v => "\x27" ++ v ++ "\x27"
  | GoValue.uuid v => "\x27" ++ v ++ "\x27"
  | GoValue.otherVal v => v

/-- Model of `strings.Replace(s, "?", val, 1)`: replace the leftmost `?` of the
current string, if any. -/
def replaceFirstQMark : List Char → List Char → List Char
  | [], _ => []
  | c :: rest, val =>
    if c = '?' then val ++ rest else c :: replaceFirstQMark rest val

/-- The substitution loop of `ParseQuery`: for each parameter in
declaration order, replace the leftmost `?` of the partially
substituted query with the rendered value. -/
def substituteParams : List Char → List GoValue → List Char
  | q, [] => q
  | q, p :: ps => substituteParams (replaceFirstQMark q (renderValue p).toList) ps

/-- Model of `strings.ReplaceAll(query, "\t", "")`. -/
def removeTabs (s : List Char) : List Char := s.filter (fun c => c ≠ '\t')

/-- Model of `strings.ReplaceAll(query, "\n", " ")`. -/
def newlinesToSpaces (s : List Char) : List Char :=
  s.map (fun c => if c = '\n' then ' ' else c)

/-- Model of `strings.Trim(query, " ")`: strip leading and trailing spaces. -/
def trimSpaces (s : List Char) : List Char :=
  ((s.dropWhile (fun c => c = ' ')).reverse.dropWhile (fun c => c = ' ')).reverse

/-- Model of `ParseQuery`: `named` is the outcome of `sqlx.Named(query, args)` —
either a resolution error, whose text becomes the whole result, or the
rewritten query (placeholders as `?`) with the parameters in declaration
order. On success, substitute the parameters, remove tabs, turn newlines
into spaces and trim surrounding spaces. -/
def ParseQuery (named : Except String (String × List GoValue)) : String :=
  match named with
  | Except.error e => e
  | Except.ok (query, params) =>
    String.mk (trimSpaces (newlinesToSpaces (removeTabs
      (substituteParams query.toList params))))

/-! ## Helper lemmas -/

/-- When every row scans successfully, the row loop returns exactly the
scanned values in driver-return order. -/
theorem scanRows_total_ok (Row T : Type) (f : Row → T) (rows : List Row) :
    scanRows (fun r => (Except.ok (f r) : Except String T)) rows
      = Except.ok (rows.map f) := by
  induction rows with
  | nil => rfl
  | cons r rs ih => simp [scanRows, ih]

/-- A loop iteration whose ping fails and whose sleep crosses the
deadline exits with the combined context-and-ping error. -/
theorem statusCheckLoop_fail_exit (p : Nat → Bool) (deadline now k : Nat)
    (pings sleeps : List Nat) (hp : p now = false)
    (h : deadline ≤ now + (k + 1)) :
    statusCheckLoop p deadline now k pings sleeps
      = LoopExit.ctxExpired (now + (k + 1)) (pings ++ [now]) (sleeps ++ [k + 1]) := by
  rw [statusCheckLoop.eq_def]
  simp [hp, h]

/-- A loop iteration whose ping fails and whose sleep stays inside the
deadline continues with the next attempt number. -/
theorem statusCheckLoop_fail_step (p : Nat → Bool) (deadline now k : Nat)
    (pings sleeps : List Nat) (hp : p now = false)
    (h : now + (k + 1) < deadline) :
    statusCheckLoop p deadline now k pings sleeps
      = statusCheckLoop p deadline (now + (k + 1)) (k + 1)
          (pings ++ [now]) (sleeps ++ [k + 1]) := by
  rw [statusCheckLoop.eq_def]
  have h2 : ¬ deadline ≤ now + (k + 1) := by omega
  simp [hp, h2]

/-! ## Claims -/

/-- C1: a single-row query execution that succeeds at the driver level
returns `NotFound` on zero rows with the destination unchanged; on one
or more rows it maps exactly the first row into the destination and the
result is independent of all further rows. -/
theorem runQuery_single_row (Row T : Type) (structScan : Row → Except String T)
    (d : T) (r : Row) (rest : List Row) (v : T)
    (hscan : structScan r = Except.ok v) :
    RunQuery (Except.ok ([] : List Row)) structScan d = (d, some DBError.notFound) ∧
    RunQuery (Except.ok (r :: rest)) structScan d = (v, none) ∧
    (∀ rest2 : List Row, RunQuery (Except.ok (r :: rest)) structScan d
      = RunQuery (Except.ok (r :: rest2)) structScan d) := by
  refine ⟨rfl, ?_, fun rest2 => ?_⟩ <;> simp [RunQuery, hscan]

/-- Witness for C1 at `Row = T = Nat`, rows `[7, 8, 9]`, identity scan. -/
theorem runQuery_single_row_witness :
    RunQuery (Except.ok ([] : List Nat))
        (fun r : Nat => (Except.ok r : Except String Nat)) 0
      = (0, some DBError.notFound) ∧
    RunQuery (Except.ok (7 :: [8, 9]))
        (fun r : Nat => (Except.ok r : Except String Nat)) 0 = (7, none) ∧
    (∀ rest2 : List Nat, RunQuery (Except.ok (7 :: [8, 9]))
        (fun r : Nat => (Except.ok r : Except String Nat)) 0
      = RunQuery (Except.ok (7 :: rest2))
        (fun r : Nat => (Except.ok r : Except String Nat)) 0) :=
  runQuery_single_row Nat Nat (fun r => Except.ok r) 0 7 [8, 9] 7 rfl

/-- C2: a multi-row query execution returns an empty list and no error
on zero rows; on `N` rows that all scan, exactly the `N` mapped elements
in driver-return order; and on a driver error or a row-scan error the
caller's destination is returned unchanged. -/
theorem runQuerySlice_rows_and_errors (Row T : Type) (f : Row → T)
    (structScan : Row → Except String T) (dest : List T) (rows : List Row)
    (e : DriverError) (m : String)
    (hm : scanRows structScan rows = Except.error m) :
    RunQuerySlice (Except.ok ([] : List Row)) structScan dest = ([], none) ∧
    RunQuerySlice (Except.ok rows)
        (fun r => (Except.ok (f r) : Except String T)) dest = (rows.map f, none) ∧
    (RunQuerySlice (Except.error e) structScan dest).1 = dest ∧
    (RunQuerySlice (Except.ok rows) structScan dest).1 = dest := by
  refine ⟨rfl, ?_, ?_, ?_⟩
  · simp [RunQuerySlice, scanRows_total_ok]
  · cases e <;> simp [RunQuerySlice, translateReadErr]
  · simp [RunQuerySlice, hm]

/-- Witness for C2 at `Row = T = Nat`, rows `[1, 2]`, map `r + 1`, a
failing scan, and a non-postgres driver error. -/
theorem runQuerySlice_rows_and_errors_witness :
    RunQuerySlice (Except.ok ([] : List Nat))
        (fun _ : Nat => (Except.error "boom" : Except String Nat)) [5] = ([], none) ∧
    RunQuerySlice (Except.ok [1, 2])
        (fun r : Nat => (Except.ok (r + 1) : Except String Nat)) [5]
      = ([1, 2].map (fun r => r + 1), none) ∧
    (RunQuerySlice (Except.error (DriverError.otherErr "x"))
        (fun _ : Nat => (Except.error "boom" : Except String Nat)) [5]).1 = [5] ∧
    (RunQuerySlice (Except.ok [1, 2])
        (fun _ : Nat => (Except.error "boom" : Except String Nat)) [5]).1 = [5] :=
  runQuerySlice_rows_and_errors Nat Nat (fun r => r + 1)
    (fun _ => Except.error "boom") [5] [1, 2] (DriverError.otherErr "x") "boom" rfl

/-- C3: a mutation execution maps driver code `23505` to
`DuplicatedEntry` and `42P01` to `UndefinedTable` whatever the free-text
message; success with any affected-row count (zero included) is not an
error; and any other code is passed through, so the classification is
decided by the code alone. -/
theorem runCUD_classification (msg msg2 code : String) (n : Nat)
    (h1 : code ≠ "42P01") (h2 : code ≠ "23505") :
    RunCUD (Except.error (DriverError.pg "23505" msg)) = some DBError.duplicatedEntry ∧
    RunCUD (Except.error (DriverError.pg "42P01" msg)) = some DBError.undefinedTable ∧
    RunCUD (Except.ok n) = none ∧
    RunCUD (Except.error (DriverError.pg code msg))
      = some (DBError.driver (DriverError.pg code msg)) ∧
    RunCUD (Except.error (DriverError.pg "23505" msg))
      = RunCUD (Except.error (DriverError.pg "23505" msg2)) := by
  refine ⟨?_, ?_, rfl, ?_, ?_⟩ <;>
    simp [RunCUD, uniqueViolation, undefinedTable, h1, h2]

/-- Witness for C3 at messages `"a"`, `"b"`, code `"99999"`, zero
affected rows. -/
theorem runCUD_classification_witness :
    RunCUD (Except.error (DriverError.pg "23505" "a")) = some DBError.duplicatedEntry ∧
    RunCUD (Except.error (DriverError.pg "42P01" "a")) = some DBError.undefinedTable ∧
    RunCUD (Except.ok 0) = none ∧
    RunCUD (Except.error (DriverError.pg "99999" "a"))
      = some (DBError.driver (DriverError.pg "99999" "a")) ∧
    RunCUD (Except.error (DriverError.pg "23505" "a"))
      = RunCUD (Except.error (DriverError.pg "23505" "b")) :=
  runCUD_classification "a" "b" "99999" 0 (by decide) (by decide)

/-- C7 counterexample: a driver error with the uniqueness-violation code
`23505` during single-row query execution is returned unchanged, not
mapped to `DuplicatedEntry` as the claim states. -/
theorem runQuery_unique_violation_passthrough :
    (RunQuery (Except.error (DriverError.pg "23505" "duplicate key"))
        (fun r : Unit => (Except.ok r : Except String Unit)) ()).2
      = some (DBError.driver (DriverError.pg "23505" "duplicate key")) ∧
    (RunQuery (Except.error (DriverError.pg "23505" "duplicate key"))
        (fun r : Unit => (Except.ok r : Except String Unit)) ()).2
      ≠ some DBError.duplicatedEntry := by
  exact ⟨rfl, by decide⟩

/-- C7 amended: for driver errors during single-row or multi-row query
execution, only the relation-does-not-exist code `42P01` is translated
(to `UndefinedTable`); every other driver error — uniqueness violations
included — is passed through to the caller unchanged. -/
theorem read_driver_error_translation (code msg : String) (Row T : Type)
    (structScan : Row → Except String T) (d : T) (ds : List T)
    (hc : code ≠ "42P01") :
    (RunQuery (Except.error (DriverError.pg "42P01" msg)) structScan d).2
      = some DBError.undefinedTable ∧
    (RunQuerySlice (Except.error (DriverError.pg "42P01" msg)) structScan ds).2
      = some DBError.undefinedTable ∧
    (RunQuery (Except.error (DriverError.pg code msg)) structScan d).2
      = some (DBError.driver (DriverError.pg code msg)) ∧
    (RunQuerySlice (Except.error (DriverError.pg code msg)) structScan ds).2
      = some (DBError.driver (DriverError.pg code msg)) ∧
    (RunQuery (Except.error (DriverError.otherErr msg)) structScan d).2
      = some (DBError.driver (DriverError.otherErr msg)) := by
  refine ⟨?_, ?_, ?_, ?_, rfl⟩ <;>
    simp [RunQuery, RunQuerySlice, translateReadErr, undefinedTable, hc]

/-- Witness for the amended C7 at code `"23505"` (a uniqueness
violation), `Row = T = Nat`. -/
theorem read_driver_error_translation_witness :
    (RunQuery (Except.error (DriverError.pg "42P01" "m"))
        (fun r : Nat => (Except.ok r : Except String Nat)) 0).2
      = some DBError.undefinedTable ∧
    (RunQuerySlice (Except.error (DriverError.pg "42P01" "m"))
        (fun r : Nat => (Except.ok r : Except String Nat)) []).2
      = some DBError.undefinedTable ∧
    (RunQuery (Except.error (DriverError.pg "23505" "m"))
        (fun r : Nat => (Except.ok r : Except String Nat)) 0).2
      = some (DBError.driver (DriverError.pg "23505" "m")) ∧
    (RunQuerySlice (Except.error (DriverError.pg "23505" "m"))
        (fun r : Nat => (Except.ok r : Except String Nat)) []).2
      = some (DBError.driver (DriverError.pg "23505" "m")) ∧
    (RunQuery (Except.error (DriverError.otherErr "m"))
        (fun r : Nat => (Except.ok r : Except String Nat)) 0).2
      = some (DBError.driver (DriverError.otherErr "m")) :=
  read_driver_error_translation "23505" "m" Nat Nat
    (fun r => Except.ok r) 0 [] (by decide)

/-- C8: the query formatter is total — a parameter-name-resolution
failure makes the error text itself the result — and on success it
substitutes bound values for placeholders in declaration order, wrapping
string, byte-sequence and UUID values in single quotes and rendering
other values in their default textual form; tabs are removed, newlines
become single spaces, and surrounding spaces are trimmed. In particular
`SELECT * FROM t WHERE id = ?` with bound value `"abc"` yields
`SELECT * FROM t WHERE id = 'abc'`. -/
theorem parseQuery_total_and_formats :
    (∀ e : String, ParseQuery (Except.error e) = e) ∧
    ParseQuery (Except.ok ("SELECT * FROM t WHERE id = ?", [GoValue.str "abc"]))
      = "SELECT * FROM t WHERE id = \x27abc\x27" ∧
    ParseQuery (Except.ok ("\tSELECT *\nFROM t ", [])) = "SELECT * FROM t" ∧
    ParseQuery (Except.ok ("? ?", [GoValue.bytes "b", GoValue.uuid "u"]))
      = "\x27b\x27 \x27u\x27" ∧
    ParseQuery (Except.ok ("n = ?", [GoValue.otherVal "42"])) = "n = 42" := by
  exact ⟨fun e => rfl, rfl, rfl, rfl, rfl⟩

/-- C9: each substitution replaces the leftmost `?` of the partially
substituted string: with query `a = ? AND b = ?` and bound values
`"x?y"` (a string containing `?`) then `1`, the second value lands
inside the first value's rendered text (`'x1y'`), while the query's own
second placeholder survives untouched. -/
theorem parseQuery_replaces_leftmost_qmark :
    ParseQuery (Except.ok ("a = ? AND b = ?",
        [GoValue.str "x?y", GoValue.otherVal "1"]))
      = "a = \x27x1y\x27 AND b = ?" ∧
    ("a = \x27x1y\x27 AND b = ?" : String) ≠ "a = \x27x?y\x27 AND b = 1" := by
  exact ⟨rfl, by decide⟩

/-- C5: with TLS enabled and any of the three certificate fields empty,
`Open` fails with the configuration error straight from `getSSLMode`:
the connection target is never assembled (the `Except.error` branch of
`openConnTarget` precedes the target construction), so no connection
string is built and no pool or network activity happens. -/
theorem open_tls_missing_cert (cfg : Config) (hTLS : cfg.EnableTLS = true)
    (h : cfg.CACert = "" ∨ cfg.ClientCert = "" ∨ cfg.ClientKey = "") :
    getSSLMode cfg = Except.error "SSL certificates not properly configured" ∧
    openConnTarget cfg = Except.error "SSL certificates not properly configured" := by
  have hs : getSSLMode cfg = Except.error "SSL certificates not properly configured" := by
    simp [getSSLMode, hTLS, h]
  exact ⟨hs, by simp [openConnTarget, hs]⟩

/-- Witness for C5: TLS enabled with an empty CA certificate. -/
theorem open_tls_missing_cert_witness :
    getSSLMode ⟨"u", "p", "h", "5432", "db", "", 1, 2, 3, true, "", "cc", "ck", "app"⟩
      = Except.error "SSL certificates not properly configured" ∧
    openConnTarget ⟨"u", "p", "h", "5432", "db", "", 1, 2, 3, true, "", "cc", "ck", "app"⟩
      = Except.error "SSL certificates not properly configured" :=
  open_tls_missing_cert
    ⟨"u", "p", "h", "5432", "db", "", 1, 2, 3, true, "", "cc", "ck", "app"⟩
    rfl (Or.inl rfl)

/-- C6: for every valid configuration the connection target carries
`sslmode=disable` when TLS is off, and `sslmode=require` plus all three
certificate parameters when TLS is on with all fields populated; it
always carries the UTC timezone directive and the application name, and
carries `search_path` exactly when a schema is configured. -/
theorem open_conn_target_params (cfg : Config) :
    (cfg.EnableTLS = false →
      ∃ t : ConnTarget, openConnTarget cfg = Except.ok t ∧
        t.query "sslmode" = some "disable" ∧
        t.query "timezone" = some "utc" ∧
        t.query "application_name" = some cfg.ApplicationName ∧
        (cfg.Schema ≠ "" → t.query "search_path" = some cfg.Schema) ∧
        (cfg.Schema = "" → t.query "search_path" = none)) ∧
    (cfg.EnableTLS = true → cfg.CACert ≠ "" → cfg.ClientCert ≠ "" →
      cfg.ClientKey ≠ "" →
      ∃ t : ConnTarget, openConnTarget cfg = Except.ok t ∧
        t.query "sslmode" = some "require" ∧
        t.query "sslrootcert" = some cfg.CACert ∧
        t.query "sslcert" = some cfg.ClientCert ∧
        t.query "sslkey" = some cfg.ClientKey ∧
        t.query "timezone" = some "utc" ∧
        t.query "application_name" = some cfg.ApplicationName ∧
        (cfg.Schema ≠ "" → t.query "search_path" = some cfg.Schema) ∧
        (cfg.Schema = "" → t.query "search_path" = none)) := by
  constructor
  · intro hTLS
    have hs : getSSLMode cfg = Except.ok "disable" := by simp [getSSLMode, hTLS]
    refine ⟨⟨"postgres", cfg.User, cfg.Password, cfg.Host ++ ":" ++ cfg.Port,
        cfg.Name, buildQueryValues cfg "disable"⟩,
      by simp [openConnTarget, hs], ?_, ?_, ?_, ?_, ?_⟩ <;>
      first
      | (intro hSch
         by_cases hS : cfg.Schema = "" <;>
           simp_all [buildQueryValues, Values.set, Values.empty, hTLS])
      | (by_cases hS : cfg.Schema = "" <;>
         simp [buildQueryValues, Values.set, Values.empty, hTLS, hS])
  · intro hTLS h1 h2 h3
    have hs : getSSLMode cfg = Except.ok "require" := by
      simp [getSSLMode, hTLS, h1, h2, h3]
    refine ⟨⟨"postgres", cfg.User, cfg.Password, cfg.Host ++ ":" ++ cfg.Port,
        cfg.Name, buildQueryValues cfg "require"⟩,
      by simp [openConnTarget, hs], ?_, ?_, ?_, ?_, ?_, ?_, ?_, ?_⟩ <;>
      first
      | (intro hSch
         by_cases hS : cfg.Schema = "" <;>
           simp_all [buildQueryValues, Values.set, Values.empty, hTLS])
      | (by_cases hS : cfg.Schema = "" <;>
         simp [buildQueryValues, Values.set, Values.empty, hTLS, hS])

/-- Witness for C6: a TLS-off configuration with schema `public` and a
TLS-on configuration with all certificates populated and no schema. -/
theorem open_conn_target_params_witness :
    (∃ t : ConnTarget,
      openConnTarget ⟨"u", "p", "h", "5432", "db", "public", 1, 2, 3,
          false, "", "", "", "app"⟩ = Except.ok t ∧
      t.query "sslmode" = some "disable" ∧
      t.query "timezone" = some "utc" ∧
      t.query "application_name" = some "app" ∧
      (("public" : String) ≠ "" → t.query "search_path" = some "public") ∧
      (("public" : String) = "" → t.query "search_path" = none)) ∧
    (∃ t : ConnTarget,
      openConnTarget ⟨"u", "p", "h", "5432", "db", "", 1, 2, 3,
          true, "ca", "cc", "ck", "app"⟩ = Except.ok t ∧
      t.query "sslmode" = some "require" ∧
      t.query "sslrootcert" = some "ca" ∧
      t.query "sslcert" = some "cc" ∧
      t.query "sslkey" = some "ck" ∧
      t.query "timezone" = some "utc" ∧
      t.query "application_name" = some "app" ∧
      (("" : String) ≠ "" → t.query "search_path" = some "") ∧
      (("" : String) = "" → t.query "search_path" = none)) :=
  ⟨(open_conn_target_params ⟨"u", "p", "h", "5432", "db", "public", 1, 2, 3,
      false, "", "", "", "app"⟩).1 rfl,
   (open_conn_target_params ⟨"u", "p", "h", "5432", "db", "", 1, 2, 3,
      true, "ca", "cc", "ck", "app"⟩).2 rfl (by decide) (by decide) (by decide)⟩

/-- C4: with no deadline on the context, `StatusCheck` imposes the
default `now + 5` seconds; against a probe that always fails it
terminates (the loop is a total function) once the deadline elapses,
returning the single combined context-error-plus-last-probe-error
result, after probes at `now`, `now+1`, `now+3` and sleeps of exactly
`1`, `2`, `3` seconds — linear backoff with attempt starting at 1. -/
theorem statusCheck_default_deadline_failing_probe (now : Nat) (rt : Bool) :
    effectiveDeadline ⟨none⟩ now = now + 5 ∧
    StatusCheck ⟨none⟩ now (fun _ => false) rt
      = ⟨StatusResult.ctxAndPing, [now, now + 1, now + 3], [1, 2, 3]⟩ := by
  refine ⟨rfl, ?_⟩
  have hloop : statusCheckLoop (fun _ => false) (now + 5) now 0 [] []
      = LoopExit.ctxExpired (now + 6) [now, now + 1, now + 3] [1, 2, 3] := by
    rw [statusCheckLoop_fail_step _ _ _ _ _ _ rfl (by omega)]
    rw [statusCheckLoop_fail_step _ _ _ _ _ _ rfl (by omega)]
    rw [statusCheckLoop_fail_exit _ _ _ _ _ _ rfl (by omega)]
    norm_num
  simp [StatusCheck, effectiveDeadline, hloop]

/-- C10: with a context already expired at call time (`d ≤ now`),
`StatusCheck` still issues exactly one ping probe (at time `now`, before
any context check), sleeps one full second, and only then returns — and
the retry-loop error is the combined context-plus-probe error, never the
bare context error. -/
theorem statusCheck_expired_context_still_probes (now d : Nat) (rt : Bool)
    (h : d ≤ now) :
    StatusCheck ⟨some d⟩ now (fun _ => false) rt
      = ⟨StatusResult.ctxAndPing, [now], [1]⟩ ∧
    (StatusCheck ⟨some d⟩ now (fun _ => false) rt).pings.length = 1 ∧
    (StatusCheck ⟨some d⟩ now (fun _ => false) rt).result ≠ StatusResult.ctxOnly := by
  have hloop : statusCheckLoop (fun _ => false) d now 0 [] []
      = LoopExit.ctxExpired (now + 1) [now] [1] := by
    rw [statusCheckLoop_fail_exit _ _ _ _ _ _ rfl (by omega)]
    norm_num
  have hsc : StatusCheck ⟨some d⟩ now (fun _ => false) rt
      = ⟨StatusResult.ctxAndPing, [now], [1]⟩ := by
    simp [StatusCheck, effectiveDeadline, hloop]
  refine ⟨hsc, by rw [hsc]; rfl, by rw [hsc]; simp⟩

/-- Witness for C10 at `now = 0`, `d = 0` (context expired at call). -/
theorem statusCheck_expired_context_still_probes_witness :
    StatusCheck ⟨some 0⟩ 0 (fun _ => false) true
      = ⟨StatusResult.ctxAndPing, [0], [1]⟩ ∧
    (StatusCheck ⟨some 0⟩ 0 (fun _ => false) true).pings.length = 1 ∧
    (StatusCheck ⟨some 0⟩ 0 (fun _ => false) true).result ≠ StatusResult.ctxOnly :=
  statusCheck_expired_context_still_probes 0 0 true (Nat.le_refl 0)

end Pgx
